import Mathlib

/-
Verification of the SIR compartmental-model engine and the dispersion
statistic of this repository, shallowly embedded in Lean 4.

Numbers are modelled as rationals (exact arithmetic).  Python exceptions
are modelled by an explicit error type: Python raises `ZeroDivisionError`
when a float division has divisor zero, `ValueError` from the dataclass
validation in `__post_init__`, and `TypeError` from unsupported `+`
operands, so fallible operations return `Except PyError _`.
-/

/-- Kinds of Python exceptions the embedded code can raise. -/
inductive PyError where
  | valueError
  | typeError
  | zeroDivisionError
deriving DecidableEq, Repr

/-- Embeds the frozen dataclass `SIRModelStateChange` (fields `dS`, `dI`, `dR`). -/
structure SIRModelStateChange where
  dS : ℚ
  dI : ℚ
  dR : ℚ
deriving DecidableEq, Repr

/-- Embeds `SIRModelStateChange.__add__` restricted to two change operands:
component-wise addition, no validation. -/
def SIRModelStateChange.add (a b : SIRModelStateChange) : SIRModelStateChange :=
  ⟨a.dS + b.dS, a.dI + b.dI, a.dR + b.dR⟩

/-- Embeds the frozen dataclass `SIRModelState` (fields `S`, `I`, `R`,
each defaulting to `0.0`).  The record holds the raw fields; validated
construction is `SIRModelState.make`. -/
structure SIRModelState where
  S : ℚ := 0
  I : ℚ := 0
  R : ℚ := 0
deriving DecidableEq, Repr

/-- Embeds construction of `SIRModelState`, including the `__post_init__`
checks: each of `S`, `I`, `R` negative raises `ValueError`. -/
def SIRModelState.make (S I R : ℚ) : Except PyError SIRModelState :=
  if S < 0 then .error .valueError
  else if I < 0 then .error .valueError
  else if R < 0 then .error .valueError
  else .ok ⟨S, I, R⟩

/-- Embeds the derived property `SIRModelState.N = S + I + R` (computed on
demand, never stored). -/
def SIRModelState.N (s : SIRModelState) : ℚ := s.S + s.I + s.R

/-- Embeds `SIRModelState.__add__` applied to a `SIRModelStateChange`
operand: constructs `SIRModelState(S+dS, I+dI, R+dR)`, which re-runs the
`__post_init__` validation and hence can raise `ValueError`. -/
def SIRModelState.addChange (s : SIRModelState) (c : SIRModelStateChange) :
    Except PyError SIRModelState :=
  SIRModelState.make (s.S + c.dS) (s.I + c.dI) (s.R + c.dR)

/-- Embeds the frozen dataclass `SIRModelParam` (fields `beta`, `mu`). -/
structure SIRModelParam where
  beta : ℚ
  mu : ℚ
deriving DecidableEq, Repr

/-- Embeds construction of `SIRModelParam`, including the `__post_init__`
checks: `beta < 0` or `mu < 0` raises `ValueError`. -/
def SIRModelParam.make (beta mu : ℚ) : Except PyError SIRModelParam :=
  if beta < 0 then .error .valueError
  else if mu < 0 then .error .valueError
  else .ok ⟨beta, mu⟩

/-- A dynamic Python value, for modelling the `+` operator dispatch among
the repository's value types and an incompatible operand (a float). -/
inductive PyVal where
  | state (s : SIRModelState)
  | stateChange (c : SIRModelStateChange)
  | num (q : ℚ)
deriving DecidableEq, Repr

/-- Discriminator: is the dynamic value a `SIRModelStateChange`? -/
def PyVal.isStateChange : PyVal → Bool
  | .stateChange _ => true
  | _ => false

/-- Discriminator: is the dynamic value a `SIRModelState`? -/
def PyVal.isState : PyVal → Bool
  | .state _ => true
  | _ => false

/-- Embeds Python's `+` dispatch over the repository's types:
`SIRModelState.__add__` raises `TypeError` on a non-change operand;
`SIRModelStateChange.__add__` returns `NotImplemented` on a non-change
operand, after which Python tries the right operand's `__radd__`
(`SIRModelState.__radd__` delegates to `__add__`; a float has no handler),
and raises `TypeError` when both sides defer. -/
def pyAdd : PyVal → PyVal → Except PyError PyVal
  | .state s, .stateChange c => (s.addChange c).map .state
  | .state _, _ => .error .typeError
  | .stateChange a, .stateChange b => .ok (.stateChange (a.add b))
  | .stateChange c, .state s => (s.addChange c).map .state
  | .stateChange _, _ => .error .typeError
  | .num a, .num b => .ok (.num (a + b))
  | .num _, _ => .error .typeError

/-- Embeds the `SIRModel` engine object: fields assigned by `__init__`
in order (`time_step = 0.0`, `state`, `params`, `history = []`). -/
structure SIRModel where
  time_step : ℚ
  state : SIRModelState
  params : SIRModelParam
  history : List SIRModelState
deriving DecidableEq, Repr

/-- Embeds `SIRModel.__init__(state, params)`. -/
def SIRModel.mkEngine (state : SIRModelState) (params : SIRModelParam) : SIRModel :=
  { time_step := 0, state := state, params := params, history := [] }

/-- The method names defined in the body of `class SIRModel` in the source. -/
def SIRModel.classMethods : List String :=
  ["__init__", "calculate_change", "step", "loop"]

/-- Embeds the `update_state` member that `SIRModel` inherits from the
`BaseModel` protocol: `SIRModel` does not override it, so a call runs the
protocol's stub body `...`, which returns `None` — never a new state. -/
def SIRModel.update_state (_self : SIRModel) (_state : SIRModelState)
    (_change : SIRModelStateChange) : Option SIRModelState :=
  none

/-- Embeds `SIRModel.calculate_change`: reads the current state and
params and returns `SIRModelStateChange(-beta*S*I/N, beta*S*I/N - mu*I,
mu*I)`.  The source divides by `N` unguarded; Python float division with
divisor `0` raises `ZeroDivisionError`, modelled by the error branch. -/
def SIRModel.calculate_change (m : SIRModel) : Except PyError SIRModelStateChange :=
  if m.state.N = 0 then .error .zeroDivisionError
  else
    .ok ⟨-m.params.beta * m.state.S * m.state.I / m.state.N,
         m.params.beta * m.state.S * m.state.I / m.state.N - m.params.mu * m.state.I,
         m.params.mu * m.state.I⟩

/-- The new state computed inside `SIRModel.step` by
`self.state + self.calculate_change()`, before any field of the engine is
assigned.  Either sub-expression can raise. -/
def SIRModel.stepResult (m : SIRModel) : Except PyError SIRModelState := do
  let change ← m.calculate_change
  m.state.addChange change

/-- Embeds `SIRModel.step`: on success the engine's `state` is replaced
and `time_step` incremented by 1; an exception is raised while computing
the new state, before any assignment, so the engine is returned unchanged
together with the error. -/
def SIRModel.stepM (m : SIRModel) : SIRModel × Option PyError :=
  match m.stepResult with
  | .error e => (m, some e)
  | .ok st => ({ m with state := st, time_step := m.time_step + 1 }, none)

/-- Embeds `SIRModel.loop(num_time_step)`: repeats `step()` then
`history.append(self.state)`; an exception mid-loop keeps the mutations of
the completed iterations. -/
def SIRModel.loopM : SIRModel → ℕ → SIRModel × Option PyError
  | m, 0 => (m, none)
  | m, Nat.succ n =>
    match m.stepM with
    | (m', some e) => (m', some e)
    | (m', none) =>
      SIRModel.loopM { m' with history := m'.history ++ [m'.state] } n

/-- Calling `step()` n times sequentially on one engine, stopping at the
first raised exception. -/
def SIRModel.stepN : SIRModel → ℕ → SIRModel × Option PyError
  | m, 0 => (m, none)
  | m, Nat.succ n =>
    match m.stepM with
    | (m', some e) => (m', some e)
    | (m', none) => SIRModel.stepN m' n

/-- The chronological list of the n post-step states reached by n
successful steps from engine `m` (`none` when some step raises): the
states `loop` appends to `history`. -/
def SIRModel.trajectory : SIRModel → ℕ → Option (List SIRModelState)
  | _, 0 => some []
  | m, Nat.succ n =>
    match m.stepM with
    | (_, some _) => none
    | (m', none) => (SIRModel.trajectory m' n).map (fun l => m'.state :: l)

/-- Embeds `numpy.ndarray.mean` on a 1-d array of rationals. -/
def pyMean (x : List ℚ) : ℚ := x.sum / (x.length : ℚ)

/-- Embeds `numpy.ndarray.var` on a 1-d array of rationals: the population
variance (`ddof = 0`), the mean of squared deviations from the mean. -/
def pyVar (x : List ℚ) : ℚ :=
  ((x.map (fun v => (v - pyMean x) ^ 2)).sum) / (x.length : ℚ)

/-- Embeds `calculate_neg_binom_dispersion_param`:
`mean(x)^2 / (var(x) - mean(x))`. -/
def calculate_neg_binom_dispersion_param (x : List ℚ) : ℚ :=
  (pyMean x) ^ 2 / (pyVar x - pyMean x)

/-! ## Helper lemmas -/

/-- Validated state construction as a single conditional. -/
theorem make_eq_ite (S I R : ℚ) :
    SIRModelState.make S I R =
      if 0 ≤ S ∧ 0 ≤ I ∧ 0 ≤ R then .ok ⟨S, I, R⟩ else .error .valueError := by
  unfold SIRModelState.make
  by_cases h1 : S < 0
  · rw [if_pos h1, if_neg (fun h => absurd h.1 (not_le.mpr h1))]
  · rw [if_neg h1]
    by_cases h2 : I < 0
    · rw [if_pos h2, if_neg (fun h => absurd h.2.1 (not_le.mpr h2))]
    · rw [if_neg h2]
      by_cases h3 : R < 0
      · rw [if_pos h3, if_neg (fun h => absurd h.2.2 (not_le.mpr h3))]
      · rw [if_neg h3, if_pos ⟨not_lt.mp h1, not_lt.mp h2, not_lt.mp h3⟩]

/-- Validated param construction as a single conditional. -/
theorem param_make_eq_ite (beta mu : ℚ) :
    SIRModelParam.make beta mu =
      if 0 ≤ beta ∧ 0 ≤ mu then .ok ⟨beta, mu⟩ else .error .valueError := by
  unfold SIRModelParam.make
  by_cases h1 : beta < 0
  · rw [if_pos h1, if_neg (fun h => absurd h.1 (not_le.mpr h1))]
  · rw [if_neg h1]
    by_cases h2 : mu < 0
    · rw [if_pos h2, if_neg (fun h => absurd h.2 (not_le.mpr h2))]
    · rw [if_neg h2, if_pos ⟨not_lt.mp h1, not_lt.mp h2⟩]

/-- The change computed in spec scenario 1. -/
theorem calc_change_scenario1 :
    (SIRModel.mkEngine ⟨90, 10, 0⟩ ⟨1/2, 0⟩).calculate_change = .ok ⟨-9/2, 9/2, 0⟩ := by
  simp only [SIRModel.calculate_change, SIRModel.mkEngine, SIRModelState.N]
  norm_num

/-- The new state computed by one step in spec scenario 1. -/
theorem stepResult_scenario1 :
    (SIRModel.mkEngine ⟨90, 10, 0⟩ ⟨1/2, 0⟩).stepResult = Except.ok ⟨171/2, 29/2, 0⟩ := by
  unfold SIRModel.stepResult
  rw [calc_change_scenario1]
  show SIRModelState.addChange ⟨90, 10, 0⟩ ⟨-9/2, 9/2, 0⟩ = Except.ok ⟨171/2, 29/2, 0⟩
  unfold SIRModelState.addChange
  rw [make_eq_ite, if_pos (by norm_num)]
  norm_num

/-- One step in spec scenario 1. -/
theorem stepM_scenario1 :
    (SIRModel.mkEngine ⟨90, 10, 0⟩ ⟨1/2, 0⟩).stepM
      = (⟨1, ⟨171/2, 29/2, 0⟩, ⟨1/2, 0⟩, []⟩, none) := by
  unfold SIRModel.stepM
  rw [stepResult_scenario1]
  norm_num [SIRModel.mkEngine]

/-- One successful step determines `loop(1)`. -/
theorem loopM_one (m m₁ : SIRModel) (h : m.stepM = (m₁, none)) :
    SIRModel.loopM m 1 = ({ m₁ with history := m₁.history ++ [m₁.state] }, none) := by
  show SIRModel.loopM m (Nat.succ 0) = _
  unfold SIRModel.loopM
  rw [h]
  rfl

/-! ## Claims -/

/-- C1 (counterexample): on the engine with state `State(0, 0, 0)` —
total population zero — `calculate_change` does not raise a dedicated
zero-population precondition error: it fails with the unchecked
`ZeroDivisionError` of the unguarded division by `N`. -/
theorem calc_change_zero_pop_is_div_error :
    (SIRModel.mkEngine ⟨0, 0, 0⟩ ⟨1/2, 0⟩).calculate_change
      = .error .zeroDivisionError := by
  simp [SIRModel.calculate_change, SIRModel.mkEngine, SIRModelState.N]

/-- C1 (amended): for every `Param` and every state with `S + I + R = 0`,
`calculate_change` fails with the unchecked `ZeroDivisionError` raised by
Python's float division (so it never returns NaN/Inf), and there is no
dedicated zero-population precondition error in the code. -/
theorem calc_change_zero_pop_unchecked (p : SIRModelParam) (s : SIRModelState)
    (h : s.N = 0) :
    (SIRModel.mkEngine s p).calculate_change = .error .zeroDivisionError := by
  simp [SIRModel.calculate_change, SIRModel.mkEngine, h]

/-- C1 (witness): the amended statement at `State(0,0,0)`, `Param(1, 1)`. -/
theorem calc_change_zero_pop_unchecked_witness :
    (SIRModel.mkEngine ⟨0, 0, 0⟩ ⟨1, 1⟩).calculate_change
      = .error .zeroDivisionError :=
  calc_change_zero_pop_unchecked ⟨1, 1⟩ ⟨0, 0, 0⟩ (by norm_num [SIRModelState.N])

/-- C6: `State(S,I,R)` construction errors exactly when some argument is
negative, the error is the validation error (`ValueError`), and every
successfully constructed state has non-negative compartments; likewise
`Param(beta,mu)` errors exactly when `beta < 0` or `mu < 0`, with the
validation error, and successful construction yields non-negative rates. -/
theorem construction_validation (S I R beta mu : ℚ) :
    ((∃ e, SIRModelState.make S I R = .error e) ↔ S < 0 ∨ I < 0 ∨ R < 0) ∧
    (∀ e, SIRModelState.make S I R = .error e → e = PyError.valueError) ∧
    (∀ s, SIRModelState.make S I R = .ok s → 0 ≤ s.S ∧ 0 ≤ s.I ∧ 0 ≤ s.R) ∧
    ((∃ e, SIRModelParam.make beta mu = .error e) ↔ beta < 0 ∨ mu < 0) ∧
    (∀ e, SIRModelParam.make beta mu = .error e → e = PyError.valueError) ∧
    (∀ p, SIRModelParam.make beta mu = .ok p → 0 ≤ p.beta ∧ 0 ≤ p.mu) := by
  refine ⟨⟨?_, ?_⟩, ?_, ?_, ⟨?_, ?_⟩, ?_, ?_⟩
  · rintro ⟨e, he⟩
    by_contra hcon
    push_neg at hcon
    rw [make_eq_ite, if_pos hcon] at he
    simp at he
  · intro hneg
    refine ⟨.valueError, ?_⟩
    rw [make_eq_ite, if_neg fun hpos => ?_]
    obtain h | h | h := hneg
    exacts [absurd hpos.1 (not_le.mpr h), absurd hpos.2.1 (not_le.mpr h),
      absurd hpos.2.2 (not_le.mpr h)]
  · intro e he
    rw [make_eq_ite] at he
    by_cases hpos : 0 ≤ S ∧ 0 ≤ I ∧ 0 ≤ R
    · rw [if_pos hpos] at he
      simp at he
    · rw [if_neg hpos] at he
      injection he with h
      exact h.symm
  · intro s hs
    rw [make_eq_ite] at hs
    by_cases hpos : 0 ≤ S ∧ 0 ≤ I ∧ 0 ≤ R
    · rw [if_pos hpos] at hs
      injection hs with h
      cases h
      exact hpos
    · rw [if_neg hpos] at hs
      simp at hs
  · rintro ⟨e, he⟩
    by_contra hcon
    push_neg at hcon
    rw [param_make_eq_ite, if_pos hcon] at he
    simp at he
  · intro hneg
    refine ⟨.valueError, ?_⟩
    rw [param_make_eq_ite, if_neg fun hpos => ?_]
    obtain h | h := hneg
    exacts [absurd hpos.1 (not_le.mpr h), absurd hpos.2 (not_le.mpr h)]
  · intro e he
    rw [param_make_eq_ite] at he
    by_cases hpos : 0 ≤ beta ∧ 0 ≤ mu
    · rw [if_pos hpos] at he
      simp at he
    · rw [if_neg hpos] at he
      injection he with h
      exact h.symm
  · intro p hp
    rw [param_make_eq_ite] at hp
    by_cases hpos : 0 ≤ beta ∧ 0 ≤ mu
    · rw [if_pos hpos] at hp
      injection hp with h
      cases h
      exact hpos
    · rw [if_neg hpos] at hp
      simp at hp

/-- C6 (witness): `State(1, 2, 3)` constructs successfully and its
compartments are non-negative. -/
theorem construction_validation_witness :
    (0:ℚ) ≤ 1 ∧ (0:ℚ) ≤ 2 ∧ (0:ℚ) ≤ 3 :=
  (construction_validation 1 2 3 0 0).2.2.1 ⟨1, 2, 3⟩ (by rfl)

/-- C2 (counterexample): the engine does not provide a working
`update_state`: calling it on a concrete engine returns `None` rather
than a new state, and `update_state` is not among the methods the
`SIRModel` class defines. -/
theorem update_state_not_provided :
    SIRModel.update_state (SIRModel.mkEngine ⟨90, 10, 0⟩ ⟨1/2, 0⟩) ⟨90, 10, 0⟩ ⟨1, 1, 1⟩
        = none ∧
    "update_state" ∉ SIRModel.classMethods :=
  ⟨rfl, by decide⟩

/-- C2 (amended): the engine provides `calculate_change`, but realizes
the contract's state-application operation through `State + StateChange`
addition (`SIRModelState.addChange`) instead of `update_state`: on
success the new state has each compartment incremented by the change
(the inputs, being values, are not mutated), it succeeds exactly when
every incremented compartment is non-negative, and the inherited
`update_state` stub returns `None` for every engine. -/
theorem state_apply_via_add (s : SIRModelState) (c : SIRModelStateChange) :
    (∀ st, s.addChange c = .ok st →
        st.S = s.S + c.dS ∧ st.I = s.I + c.dI ∧ st.R = s.R + c.dR) ∧
    ((∃ st, s.addChange c = .ok st) ↔
        0 ≤ s.S + c.dS ∧ 0 ≤ s.I + c.dI ∧ 0 ≤ s.R + c.dR) ∧
    (∀ m : SIRModel, m.update_state s c = none) := by
  unfold SIRModelState.addChange
  rw [make_eq_ite]
  by_cases h : 0 ≤ s.S + c.dS ∧ 0 ≤ s.I + c.dI ∧ 0 ≤ s.R + c.dR
  · rw [if_pos h]
    refine ⟨?_, ?_, fun _ => rfl⟩
    · intro st hst
      injection hst with h'
      cases h'
      exact ⟨rfl, rfl, rfl⟩
    · simp [h]
  · rw [if_neg h]
    refine ⟨?_, ?_, fun _ => rfl⟩
    · intro st hst
      simp at hst
    · simp [h]

/-- C2 (witness): applying the change `(1,1,1)` to the state `(1,1,1)`
succeeds. -/
theorem state_apply_via_add_witness :
    ∃ st, SIRModelState.addChange ⟨1, 1, 1⟩ ⟨1, 1, 1⟩ = .ok st :=
  (state_apply_via_add ⟨1, 1, 1⟩ ⟨1, 1, 1⟩).2.1.mpr (by norm_num)

/-- C3: for every valid state and params with positive total population,
the change returned by `calculate_change` conserves the population
exactly in rational arithmetic: `dS + dI + dR = 0`. -/
theorem calc_change_conserves_population (s : SIRModelState) (p : SIRModelParam)
    (hS : 0 ≤ s.S) (hI : 0 ≤ s.I) (hR : 0 ≤ s.R)
    (hb : 0 ≤ p.beta) (hm : 0 ≤ p.mu) (hN : 0 < s.N)
    (c : SIRModelStateChange)
    (hc : (SIRModel.mkEngine s p).calculate_change = .ok c) :
    c.dS + c.dI + c.dR = 0 := by
  have h0 : (SIRModel.mkEngine s p).state.N ≠ 0 := by
    simpa [SIRModel.mkEngine] using hN.ne'
  unfold SIRModel.calculate_change at hc
  rw [if_neg h0] at hc
  injection hc with h
  cases h
  simp only [SIRModel.mkEngine]
  ring

/-- C3 (witness): conservation at `State(90,10,0)`, `Param(1/2, 0)`. -/
theorem calc_change_conserves_population_witness : (-9/2 : ℚ) + 9/2 + 0 = 0 :=
  calc_change_conserves_population ⟨90, 10, 0⟩ ⟨1/2, 0⟩ (by norm_num) (by norm_num)
    (by norm_num) (by norm_num) (by norm_num) (by norm_num [SIRModelState.N])
    ⟨-9/2, 9/2, 0⟩ calc_change_scenario1

/-- C7: on the engine with `State(90, 10, 0)` and `Param(1/2, 0)` (both
constructing successfully), `calculate_change` returns
`(dS, dI, dR) = (-9/2, 9/2, 0)`, i.e. `(-4.5, 4.5, 0.0)`, and one `step`
yields state `(171/2, 29/2, 0)`, i.e. `(85.5, 14.5, 0.0)`, with
`time_step = 1` and total population `N = 100`. -/
theorem concrete_scenario_step :
    SIRModelState.make 90 10 0 = .ok ⟨90, 10, 0⟩ ∧
    SIRModelParam.make (1/2) 0 = .ok ⟨1/2, 0⟩ ∧
    (SIRModel.mkEngine ⟨90, 10, 0⟩ ⟨1/2, 0⟩).calculate_change = .ok ⟨-9/2, 9/2, 0⟩ ∧
    (SIRModel.mkEngine ⟨90, 10, 0⟩ ⟨1/2, 0⟩).stepM
      = (⟨1, ⟨171/2, 29/2, 0⟩, ⟨1/2, 0⟩, []⟩, none) ∧
    SIRModelState.N ⟨171/2, 29/2, 0⟩ = 100 := by
  exact ⟨by rfl, by rw [param_make_eq_ite, if_pos (by norm_num)],
    calc_change_scenario1, stepM_scenario1, by norm_num [SIRModelState.N]⟩

/-- C8: adding any non-`StateChange` operand to a `State` raises
`TypeError`, and adding any operand that is neither a `StateChange` nor a
`State` to a `StateChange` also ends in `TypeError` (the change defers
with `NotImplemented` and no right operand handles it). -/
theorem add_incompatible_type_error (s : SIRModelState) (c : SIRModelStateChange)
    (x y : PyVal) (hx : x.isStateChange = false)
    (hy1 : y.isStateChange = false) (hy2 : y.isState = false) :
    pyAdd (.state s) x = .error .typeError ∧
    pyAdd (.stateChange c) y = .error .typeError := by
  cases x <;> cases y <;> simp_all [pyAdd, PyVal.isStateChange, PyVal.isState]

/-- C8 (witness): adding a float to a `State` and to a `StateChange`
raises `TypeError`. -/
theorem add_incompatible_type_error_witness :
    pyAdd (.state ⟨1, 1, 1⟩) (.num 2) = .error .typeError ∧
    pyAdd (.stateChange ⟨1, 1, 1⟩) (.num 2) = .error .typeError :=
  add_incompatible_type_error ⟨1, 1, 1⟩ ⟨1, 1, 1⟩ (.num 2) (.num 2) rfl rfl rfl

/-- C9: the dispersion statistic on counts `[1,2,3,4,5]` has mean 3 and
population variance 2, and returns `3^2 / (2 - 3) = -9` exactly. -/
theorem dispersion_param_concrete :
    pyMean [1, 2, 3, 4, 5] = 3 ∧ pyVar [1, 2, 3, 4, 5] = 2 ∧
    calculate_neg_binom_dispersion_param [1, 2, 3, 4, 5] = -9 := by
  norm_num [calculate_neg_binom_dispersion_param, pyVar, pyMean]

/-- C10: when the computed change would drive some compartment negative,
`step()` raises the state validation error (`ValueError`) during the
construction of the new state — before any engine field is assigned — so
the engine's current state, `time_step`, and `history` are left exactly
as they were. -/
theorem step_atomic_on_failure (m : SIRModel) (c : SIRModelStateChange)
    (hc : m.calculate_change = .ok c)
    (hneg : m.state.S + c.dS < 0 ∨ m.state.I + c.dI < 0 ∨ m.state.R + c.dR < 0) :
    m.stepM = (m, some PyError.valueError) := by
  have hadd : m.state.addChange c = .error .valueError := by
    unfold SIRModelState.addChange
    rw [make_eq_ite, if_neg fun hpos => ?_]
    obtain h | h | h := hneg
    exacts [absurd hpos.1 (not_le.mpr h), absurd hpos.2.1 (not_le.mpr h),
      absurd hpos.2.2 (not_le.mpr h)]
  have hsr : m.stepResult = .error .valueError := by
    unfold SIRModel.stepResult
    rw [hc]
    exact hadd
  unfold SIRModel.stepM
  rw [hsr]

/-- C10 (witness): on the engine with `State(1, 10, 0)` and
`Param(2, 0)`, the step would take `S` negative, and `stepM` returns the
engine unchanged together with `ValueError`. -/
theorem step_atomic_on_failure_witness :
    SIRModel.stepM (SIRModel.mkEngine ⟨1, 10, 0⟩ ⟨2, 0⟩)
      = (SIRModel.mkEngine ⟨1, 10, 0⟩ ⟨2, 0⟩, some PyError.valueError) :=
  step_atomic_on_failure _ ⟨-20/11, 20/11, 0⟩
    (by
      simp only [SIRModel.calculate_change, SIRModel.mkEngine, SIRModelState.N]
      norm_num)
    (by
      left
      simp only [SIRModel.mkEngine]
      norm_num)

/-- The new state and error of a step do not depend on the engine's
history. -/
theorem stepResult_hist (t : ℚ) (s : SIRModelState) (p : SIRModelParam)
    (h₁ h₂ : List SIRModelState) :
    SIRModel.stepResult ⟨t, s, p, h₂⟩ = SIRModel.stepResult ⟨t, s, p, h₁⟩ := rfl

/-- A step on an engine with replaced history is the step on the original
engine with the same replaced history. -/
theorem stepM_hist (t : ℚ) (s : SIRModelState) (p : SIRModelParam)
    (h₁ h₂ : List SIRModelState) :
    SIRModel.stepM ⟨t, s, p, h₂⟩
      = ({ (SIRModel.stepM ⟨t, s, p, h₁⟩).1 with history := h₂ },
         (SIRModel.stepM ⟨t, s, p, h₁⟩).2) := by
  unfold SIRModel.stepM
  rw [stepResult_hist t s p h₁ h₂]
  cases hr : SIRModel.stepResult ⟨t, s, p, h₁⟩ <;> rfl

/-- `step` never touches the history. -/
theorem stepM_keeps_history (m : SIRModel) : (m.stepM).1.history = m.history := by
  unfold SIRModel.stepM
  cases hr : m.stepResult <;> rfl

/-- Iterated stepping is insensitive to the engine's history. -/
theorem stepN_hist : ∀ (n : ℕ) (t : ℚ) (s : SIRModelState) (p : SIRModelParam)
    (h₁ h₂ : List SIRModelState),
    SIRModel.stepN ⟨t, s, p, h₂⟩ n
      = ({ (SIRModel.stepN ⟨t, s, p, h₁⟩ n).1 with history := h₂ },
         (SIRModel.stepN ⟨t, s, p, h₁⟩ n).2)
  | 0, _, _, _, _, _ => rfl
  | Nat.succ n, t, s, p, h₁, h₂ => by
    unfold SIRModel.stepN
    rw [stepM_hist t s p h₁ h₂]
    cases hsm : SIRModel.stepM ⟨t, s, p, h₁⟩ with
    | mk m₁ e =>
      cases e with
      | some e => rfl
      | none =>
        obtain ⟨t', s', p', h'⟩ := m₁
        exact stepN_hist n t' s' p' h' h₂

/-- The post-step trajectory is insensitive to the engine's history. -/
theorem trajectory_hist : ∀ (n : ℕ) (t : ℚ) (s : SIRModelState) (p : SIRModelParam)
    (h₁ h₂ : List SIRModelState),
    SIRModel.trajectory ⟨t, s, p, h₂⟩ n = SIRModel.trajectory ⟨t, s, p, h₁⟩ n
  | 0, _, _, _, _, _ => rfl
  | Nat.succ n, t, s, p, h₁, h₂ => by
    unfold SIRModel.trajectory
    rw [stepM_hist t s p h₁ h₂]
    cases hsm : SIRModel.stepM ⟨t, s, p, h₁⟩ with
    | mk m₁ e =>
      cases e with
      | some e => rfl
      | none =>
        obtain ⟨t', s', p', h'⟩ := m₁
        show (SIRModel.trajectory ⟨t', s', p', h₂⟩ n).map (fun l => s' :: l)
          = (SIRModel.trajectory ⟨t', s', p', h'⟩ n).map (fun l => s' :: l)
        rw [trajectory_hist n t' s' p' h' h₂]

/-- Invariant of `loop`: a successful `loop(n)` grows the history by
exactly the trajectory of the n post-step states, in order, ending (for
`n > 0`) with the engine's final state. -/
theorem loopM_spec : ∀ (n : ℕ) (m m' : SIRModel),
    SIRModel.loopM m n = (m', none) →
    m'.history.length = m.history.length + n ∧
    (∃ t, SIRModel.trajectory m n = some t ∧ m'.history = m.history ++ t) ∧
    (n = 0 → m' = m) ∧
    (n ≠ 0 → ∃ l, m'.history = l ++ [m'.state])
  | 0, m, m', h => by
    unfold SIRModel.loopM at h
    injection h with h1 h2
    subst h1
    exact ⟨rfl, ⟨[], rfl, by simp⟩, fun _ => rfl, fun hn => absurd rfl hn⟩
  | Nat.succ n, m, m', h => by
    unfold SIRModel.loopM at h
    cases hsm : m.stepM with
    | mk m₁ e =>
      rw [hsm] at h
      cases e with
      | some e => simp at h
      | none =>
        have hh : m₁.history = m.history := by
          have hk := stepM_keeps_history m
          rw [hsm] at hk
          exact hk
        obtain ⟨hlen, ⟨t₂, htraj, hhist⟩, hzero, hlast⟩ :=
          loopM_spec n { m₁ with history := m₁.history ++ [m₁.state] } m' h
        have htraj₁ : SIRModel.trajectory m₁ n = some t₂ := by
          obtain ⟨t', s', p', h'⟩ := m₁
          rw [trajectory_hist n t' s' p' (h' ++ [s']) h']
          exact htraj
        refine ⟨?_, ⟨m₁.state :: t₂, ?_, ?_⟩,
          fun hn => absurd hn (Nat.succ_ne_zero n), fun _ => ?_⟩
        · rw [hlen]
          simp [hh]
          omega
        · unfold SIRModel.trajectory
          rw [hsm]
          show Option.map (fun l => m₁.state :: l) (m₁.trajectory n)
            = some (m₁.state :: t₂)
          rw [htraj₁]
          rfl
        · rw [hhist]
          show (m₁.history ++ [m₁.state]) ++ t₂ = m.history ++ m₁.state :: t₂
          rw [hh]
          simp
        · by_cases hn0 : n = 0
          · subst hn0
            have hm'eq := hzero rfl
            refine ⟨m₁.history, ?_⟩
            rw [hm'eq]
          · exact hlast hn0

/-- C4: after a successful `loop(n)` on a freshly constructed engine,
the history has exactly `n` entries, its last entry (for `n > 0`) is the
engine's current state, and it is exactly the chronological list of the
`n` post-step states (the initial state is not included). -/
theorem loop_history_growth (s : SIRModelState) (p : SIRModelParam) (n : ℕ)
    (m' : SIRModel) (h : (SIRModel.mkEngine s p).loopM n = (m', none)) :
    m'.history.length = n ∧
    m'.history.getLast? = (if n = 0 then none else some m'.state) ∧
    (SIRModel.mkEngine s p).trajectory n = some m'.history := by
  obtain ⟨hlen, ⟨t, htraj, hhist⟩, hzero, hlast⟩ := loopM_spec n _ m' h
  refine ⟨?_, ?_, ?_⟩
  · rw [hlen]
    simp [SIRModel.mkEngine]
  · by_cases hn : n = 0
    · subst hn
      rw [if_pos rfl, hzero rfl]
      rfl
    · rw [if_neg hn]
      obtain ⟨l, hl⟩ := hlast hn
      rw [hl, List.getLast?_append_cons]
      simp
  · rw [htraj, hhist]
    rfl

/-- C4 (witness): `loop(1)` on the scenario-1 engine yields a history of
length 1 holding exactly the one post-step state, which is the engine's
current state. -/
theorem loop_history_growth_witness :
    (SIRModel.mk 1 ⟨171/2, 29/2, 0⟩ ⟨1/2, 0⟩ [⟨171/2, 29/2, 0⟩]).history.length = 1 ∧
    (SIRModel.mk 1 ⟨171/2, 29/2, 0⟩ ⟨1/2, 0⟩ [⟨171/2, 29/2, 0⟩]).history.getLast?
      = (if 1 = 0 then none
         else some (SIRModel.mk 1 ⟨171/2, 29/2, 0⟩ ⟨1/2, 0⟩ [⟨171/2, 29/2, 0⟩]).state) ∧
    (SIRModel.mkEngine ⟨90, 10, 0⟩ ⟨1/2, 0⟩).trajectory 1
      = some (SIRModel.mk 1 ⟨171/2, 29/2, 0⟩ ⟨1/2, 0⟩ [⟨171/2, 29/2, 0⟩]).history :=
  loop_history_growth ⟨90, 10, 0⟩ ⟨1/2, 0⟩ 1
    ⟨1, ⟨171/2, 29/2, 0⟩, ⟨1/2, 0⟩, [⟨171/2, 29/2, 0⟩]⟩
    (by
      rw [loopM_one _ _ stepM_scenario1]
      rfl)

/-- `loop(n)` and `step()` n times agree on the final state, the final
`time_step`, and the error outcome (they differ only in history). -/
theorem loopM_stepN_agree : ∀ (n : ℕ) (m : SIRModel),
    (SIRModel.loopM m n).1.state = (SIRModel.stepN m n).1.state ∧
    (SIRModel.loopM m n).1.time_step = (SIRModel.stepN m n).1.time_step ∧
    (SIRModel.loopM m n).2 = (SIRModel.stepN m n).2
  | 0, _ => ⟨rfl, rfl, rfl⟩
  | Nat.succ n, m => by
    unfold SIRModel.loopM SIRModel.stepN
    cases hsm : m.stepM with
    | mk m₁ e =>
      cases e with
      | some e => exact ⟨rfl, rfl, rfl⟩
      | none =>
        obtain ⟨t', s', p', h'⟩ := m₁
        have hsn := stepN_hist n t' s' p' h' (h' ++ [s'])
        have hl := loopM_stepN_agree n ⟨t', s', p', h' ++ [s']⟩
        refine ⟨?_, ?_, ?_⟩
        · show (SIRModel.loopM ⟨t', s', p', h' ++ [s']⟩ n).1.state
            = (SIRModel.stepN ⟨t', s', p', h'⟩ n).1.state
          rw [hl.1, hsn]
        · show (SIRModel.loopM ⟨t', s', p', h' ++ [s']⟩ n).1.time_step
            = (SIRModel.stepN ⟨t', s', p', h'⟩ n).1.time_step
          rw [hl.2.1, hsn]
        · show (SIRModel.loopM ⟨t', s', p', h' ++ [s']⟩ n).2
            = (SIRModel.stepN ⟨t', s', p', h'⟩ n).2
          rw [hl.2.2, hsn]

/-- C5: for every initial state, params and `n`, calling `step()` n
times sequentially produces the same final current state, the same
`time_step`, and the same error outcome as `loop(n)` on an
identically-constructed engine. -/
theorem step_n_times_eq_loop (s : SIRModelState) (p : SIRModelParam) (n : ℕ) :
    ((SIRModel.mkEngine s p).stepN n).1.state
      = ((SIRModel.mkEngine s p).loopM n).1.state ∧
    ((SIRModel.mkEngine s p).stepN n).1.time_step
      = ((SIRModel.mkEngine s p).loopM n).1.time_step ∧
    ((SIRModel.mkEngine s p).stepN n).2 = ((SIRModel.mkEngine s p).loopM n).2 :=
  ⟨(loopM_stepN_agree n _).1.symm, (loopM_stepN_agree n _).2.1.symm,
    (loopM_stepN_agree n _).2.2.symm⟩
